import Mathlib

/-!
Shallow embedding of the failure-diagnosis pipeline of the repository
(agent-container: `log_analysis_function.py`, `repo_structure_function.py`,
`solution_provider_function.py`, `supervisor_function.py`).

Conventions of the embedding:
* Python strings are Lean `String`; the Python string operations used by the
  code (`strip`, `lower`, `endswith`, substring `in`, `replace`, `split`) are
  re-implemented structurally over `List Char` so that every definition
  evaluates by kernel reduction.
* Timestamps are epoch milliseconds, modelled as `Int` (the code converts
  `datetime` values with `int(t.timestamp() * 1000)`; we work directly in
  milliseconds).
* External AWS clients (CloudWatch Logs, SSM, CodePipeline) are modelled as
  explicit function arguments; each call is a pure lookup.  Exceptions raised
  by the code are modelled with `Except`/`Option` results.
* Python truthiness of an optional string (`None` and `""` are falsy) is
  `truthy_str` / `truthy_token` below.
* Unbounded `while` loops are given explicit fuel; a loop that has not
  finished when the fuel runs out yields `none`.
-/

/-! ### Python string primitives -/

/-- Embedding of Python `str.isspace`-based stripping: drop the characters
satisfying `p` from both ends of a character list. -/
def strip_while (p : Char → Bool) (s : List Char) : List Char :=
  ((s.dropWhile p).reverse.dropWhile p).reverse

/-- Embedding of Python `s.strip()` (strip whitespace from both ends). -/
def py_strip (s : String) : String :=
  String.mk (strip_while Char.isWhitespace s.data)

/-- Embedding of Python `s.strip(c)` for a single character `c`. -/
def py_strip_char (c : Char) (s : String) : String :=
  String.mk (strip_while (fun x => x = c) s.data)

/-- Embedding of Python `s.lower()` (ASCII case folding suffices for the
identifiers the code classifies). -/
def py_lower (s : String) : String :=
  String.mk (s.data.map Char.toLower)

/-- Embedding of Python `s.endswith(suffix)`. -/
def py_endswith (s suffix : String) : Bool :=
  suffix.data.isSuffixOf s.data

/-- Embedding of the Python substring test `needle in hay` on `List Char`. -/
def contains_chars (needle : List Char) : List Char → Bool
  | [] => needle.isEmpty
  | c :: rest => needle.isPrefixOf (c :: rest) || contains_chars needle rest

/-- Embedding of Python `needle in hay` on strings. -/
def py_in (needle hay : String) : Bool :=
  contains_chars needle.data hay.data

/-- Embedding of Python `s.replace(".git", "")`: delete every (left-to-right,
non-overlapping) occurrence of `.git` from a character list. -/
def remove_git : List Char → List Char
  | '.' :: 'g' :: 'i' :: 't' :: rest => remove_git rest
  | c :: rest => c :: remove_git rest
  | [] => []

/-- Embedding of Python `s.split(c)` for a one-character separator: always
returns at least one (possibly empty) segment, exactly like Python. -/
def split_on_char (c : Char) : List Char → List (List Char)
  | [] => [[]]
  | x :: rest =>
    match split_on_char c rest with
    | [] => [[]]
    | seg :: segs => if x = c then [] :: seg :: segs else (x :: seg) :: segs

/-! ### `repo_structure_function.py` — file classification (lines 201-250) -/

/-- `RepoStructureFunction._is_config_file` (lines 201-214). -/
def is_config_file (path : String) : Bool :=
  let config_extensions := [".json", ".yaml", ".yml", ".xml", ".properties", ".ini", ".conf"]
  let config_names := ["dockerfile", "makefile", "jenkinsfile", "buildspec"]
  config_extensions.any (fun ext => py_endswith (py_lower path) ext) ||
    config_names.any (fun name => py_in name (py_lower path))

/-- `RepoStructureFunction._is_source_file` (lines 215-229). -/
def is_source_file (path : String) : Bool :=
  let source_extensions := [".py", ".js", ".java", ".cpp", ".c", ".go", ".rs", ".rb", ".php", ".cs", ".ts"]
  source_extensions.any (fun ext => py_endswith (py_lower path) ext)

/-- `RepoStructureFunction._is_build_file` (lines 230-239): name-fragment
containment test against the build manifest names. -/
def is_build_file (path : String) : Bool :=
  let build_files := ["build.gradle", "pom.xml", "package.json", "requirements.txt", "setup.py", "cargo.toml"]
  build_files.any (fun bf => py_in bf (py_lower path))

/-- `RepoStructureFunction._is_deployment_file` (lines 240-250). -/
def is_deployment_file (path : String) : Bool :=
  let deployment_patterns := ["deploy", "k8s", "kubernetes", "helm", "terraform", "cloudformation", "docker"]
  deployment_patterns.any (fun pattern => py_in pattern (py_lower path))

/-! ### GitHub URL parsing
(`repo_structure_function.py` lines 83-89 and `solution_provider_function.py`
lines 242-252; both bodies are identical).  `urlparse` is an external library
collaborator; the function receives the URL path component and performs
`path.strip("/").split("/")` followed by the segment logic, so the embedding
takes the path string as input. -/

/-- The `path.strip("/").split("/")` segment list of both `_parse_github_url`
implementations. -/
def url_path_parts (url_path : String) : List String :=
  (split_on_char '/' (strip_while (fun c => c = '/') url_path.data)).map String.mk

/-- `_parse_github_url`, acting on the URL path: with at least two segments it
returns `(owner, second segment with ".git" occurrences removed)`; otherwise
`none` (the Python code returns `(None, None)` and the caller reports an
invalid-URL error). -/
def parse_github_url (url_path : String) : Option (String × String) :=
  match url_path_parts url_path with
  | owner :: repo :: _ => some (owner, String.mk (remove_git repo.data))
  | _ => none

/-! ### `solution_provider_function.py` — suspect-file identification
(lines 67-118).  The language model is an external collaborator; its reply is
an arbitrary string.  The code cleans the reply with
`response.strip().strip('"')` and accepts it only when it is (a) not the
literal `"NONE"` and (b) literally present in the available-file list. -/

/-- The `response.strip().strip('"')` cleaning step of
`SolutionProviderAgent._identify_problematic_file` (line 106). -/
def clean_model_response (response : String) : String :=
  py_strip_char '"' (py_strip response)

/-- `SolutionProviderAgent._identify_problematic_file` (lines 67-118), with the
extracted file list and the raw model reply as inputs: returns `some filename`
only when the cleaned reply is a member of `available_files`, and `none` for
`"NONE"` or any reply not in the list (exceptions also yield `None` in the
code; the embedded operations are total). -/
def identify_problematic_file (available_files : List String) (model_response : String) :
    Option String :=
  if clean_model_response model_response = "NONE" ∨
      ¬ available_files.contains (clean_model_response model_response) then none
  else some (clean_model_response model_response)

/-! ### `log_analysis_function.py` — data model -/

/-- One merged log entry as built by the fetch helpers (lines 240-246 and
276-282): `{log_group, timestamp, message, type}` with
`type ∈ {"event", "native"}`. -/
structure LogEvent where
  log_group : String
  timestamp : Int
  message : String
  type : String
deriving DecidableEq, Repr

/-- One raw event of a `get_log_events` page. -/
structure RawLogEvent where
  timestamp : Int
  message : String
deriving DecidableEq, Repr

/-- One page returned by the log store: the `events` list and the optional
`nextForwardToken`. -/
structure GetLogEventsResponse where
  events : List RawLogEvent
  nextForwardToken : Option String
deriving DecidableEq, Repr

/-- The CloudWatch Logs client, modelled as pure lookups:
`describe_log_streams` returns the stream names ordered by last-event time
descending (the code reads only the head), and `get_log_events` maps
`(log_group, stream, startMs, endMs, token)` to one page. -/
structure LogsClient where
  describe_log_streams : String → List String
  get_log_events : String → String → Int → Int → Option String → GetLogEventsResponse

/-- Python truthiness of `response.get('nextForwardToken')`: `None` and the
empty string are falsy. -/
def truthy_token : Option String → Bool
  | none => false
  | some s => s != ""

/-- The record built for an event-kind entry (lines 240-246). -/
def mk_event_entry (lg : String) (e : RawLogEvent) : LogEvent :=
  ⟨lg, e.timestamp, e.message, "event"⟩

/-- The record built for a native-kind entry (lines 276-282). -/
def mk_native_entry (lg : String) (e : RawLogEvent) : LogEvent :=
  ⟨lg, e.timestamp, e.message, "native"⟩

/-- One issued `get_log_events` request, recorded for the correlation
properties: the group, stream, millisecond interval and the kind of the
fetch loop that issued it. -/
structure FetchRequest where
  log_group : String
  log_stream : String
  startMs : Int
  endMs : Int
  kind : String
deriving DecidableEq, Repr

/-- The pagination loop of `_get_all_events_from_stream` (lines 221-252):
fetch a page, append its events tagged `"event"`, stop when the token is
falsy or the page is empty; there is no event-count cap.  `fuel` bounds the
number of iterations; `none` means the loop was still running. -/
def get_all_events_loop (client : LogsClient) (lg stream : String) (startMs endMs : Int) :
    Nat → List LogEvent → List FetchRequest → Option String →
    Option (List LogEvent × List FetchRequest)
  | 0, _, _, _ => none
  | fuel + 1, events, reqs, tok =>
    let r := client.get_log_events lg stream startMs endMs tok
    let events2 := events ++ r.events.map (mk_event_entry lg)
    let reqs2 := reqs ++ [⟨lg, stream, startMs, endMs, "event"⟩]
    if ¬ truthy_token r.nextForwardToken = true ∨ r.events = [] then some (events2, reqs2)
    else get_all_events_loop client lg stream startMs endMs fuel events2 reqs2 r.nextForwardToken

/-- `LogAnalysisFunction._get_all_events_from_stream` (lines 221-252). -/
def get_all_events_from_stream (client : LogsClient) (lg stream : String)
    (startMs endMs : Int) (fuel : Nat) : Option (List LogEvent × List FetchRequest) :=
  get_all_events_loop client lg stream startMs endMs fuel [] [] none

/-- The pagination loop of `_get_events_around_failure` (lines 257-288): like
the event loop but entries are tagged `"native"` and the loop additionally
stops once more than 100 events have accumulated
(`len(events) > 100`, line 285). -/
def get_events_around_loop (client : LogsClient) (lg stream : String) (startMs endMs : Int) :
    Nat → List LogEvent → List FetchRequest → Option String →
    Option (List LogEvent × List FetchRequest)
  | 0, _, _, _ => none
  | fuel + 1, events, reqs, tok =>
    let r := client.get_log_events lg stream startMs endMs tok
    let events2 := events ++ r.events.map (mk_native_entry lg)
    let reqs2 := reqs ++ [⟨lg, stream, startMs, endMs, "native"⟩]
    if ¬ truthy_token r.nextForwardToken = true ∨ r.events = [] ∨ 100 < events2.length then
      some (events2, reqs2)
    else get_events_around_loop client lg stream startMs endMs fuel events2 reqs2 r.nextForwardToken

/-- `LogAnalysisFunction._get_events_around_failure` (lines 257-288). -/
def get_events_around_failure (client : LogsClient) (lg stream : String)
    (startMs endMs : Int) (fuel : Nat) : Option (List LogEvent × List FetchRequest) :=
  get_events_around_loop client lg stream startMs endMs fuel [] [] none

/-! ### Bundle assembly (lines 200-216) -/

/-- The sort key of both `sort` calls: ascending timestamp.  Python's
`list.sort` is stable; `List.insertionSort` with a total preorder is the same
stable ascending sort. -/
def tsLE (a b : LogEvent) : Prop := a.timestamp ≤ b.timestamp

instance : DecidableRel tsLE := fun a b => Int.decLe a.timestamp b.timestamp

instance : IsTotal LogEvent tsLE := ⟨fun a b => Int.le_total a.timestamp b.timestamp⟩

instance : IsTrans LogEvent tsLE := ⟨fun _ _ _ => Int.le_trans⟩

/-- `log.get('type') == 'event'` (line 204). -/
def is_event_entry (e : LogEvent) : Bool := e.type == "event"

/-- `log.get('type') == 'native'` (line 205). -/
def is_native_entry (e : LogEvent) : Bool := e.type == "native"

/-- Python `l[-n:]`: the last `n` elements (all of them when `l` is shorter). -/
def lastN (n : Nat) (l : List α) : List α := l.drop (l.length - n)

/-- The returned dictionary of `_fetch_logs_in_timeframe` (lines 211-216). -/
structure LogBundle where
  logs : List LogEvent
  total_events : Nat
  total_native : Nat
  log_summary : String
deriving DecidableEq, Repr

/-- `all_logs.sort(key=lambda x: x['timestamp'])` (line 201). -/
def sorted_all_logs (all_logs : List LogEvent) : List LogEvent :=
  List.insertionSort tsLE all_logs

/-- `event_logs = [log for log in all_logs if log.get('type') == 'event']`
(line 204, after the sort). -/
def sorted_event_logs (all_logs : List LogEvent) : List LogEvent :=
  (sorted_all_logs all_logs).filter is_event_entry

/-- `native_logs = [log for log in all_logs if log.get('type') == 'native']`
(line 205, after the sort). -/
def sorted_native_logs (all_logs : List LogEvent) : List LogEvent :=
  (sorted_all_logs all_logs).filter is_native_entry

/-- Final assembly of `_fetch_logs_in_timeframe` (lines 200-216): stable-sort
the merged events by timestamp, split by kind, keep all event-kind entries
plus the last 50 native-kind entries (`event_logs + native_logs[-50:]`),
stable-sort again, and report the two totals. -/
def assemble_log_bundle (all_logs : List LogEvent) : LogBundle :=
  let event_logs := sorted_event_logs all_logs
  let native_logs := sorted_native_logs all_logs
  let final_logs := List.insertionSort tsLE (event_logs ++ lastN 50 native_logs)
  { logs := final_logs
    total_events := event_logs.length
    total_native := native_logs.length
    log_summary := "Found " ++ toString event_logs.length ++ " events and " ++
      toString native_logs.length ++ " native logs" }

/-- `is_event_log = any(keyword in log_group for keyword in
['-event-log-group'])` (line 168). -/
def is_event_log_group (lg : String) : Bool := py_in "-event-log-group" lg

/-- The per-group body of the `for log_group in log_groups` loop of
`_fetch_logs_in_timeframe` (lines 165-198): read the most recent stream (skip
the group when there is none), then fetch the full `[start_ms, end_ms]` range
for event-kind groups and the 30-minute window `[end_ms - 30*60*1000, end_ms]`
for native-kind groups. -/
def fetch_group (client : LogsClient) (start_ms end_ms : Int) (fuel : Nat) (lg : String) :
    Option (List LogEvent × List FetchRequest) :=
  match client.describe_log_streams lg with
  | [] => some ([], [])
  | stream :: _ =>
    if is_event_log_group lg then
      get_all_events_from_stream client lg stream start_ms end_ms fuel
    else
      get_events_around_failure client lg stream (end_ms - 30 * 60 * 1000) end_ms fuel

/-- The whole `for log_group in log_groups` loop: groups are fetched one at a
time in list order, concatenating events and issued requests. -/
def fetch_groups (client : LogsClient) (start_ms end_ms : Int) (fuel : Nat) :
    List String → Option (List LogEvent × List FetchRequest)
  | [] => some ([], [])
  | lg :: rest =>
    match fetch_group client start_ms end_ms fuel lg,
          fetch_groups client start_ms end_ms fuel rest with
    | some (evs, rs), some (evs2, rs2) => some (evs ++ evs2, rs ++ rs2)
    | _, _ => none

/-- `LogAnalysisFunction._fetch_logs_in_timeframe` (lines 152-216): when either
bound is absent the window defaults to the last hour ending at `now`
(lines 155-157); otherwise the given window is used.  Returns the assembled
bundle together with the trace of issued `get_log_events` requests. -/
def fetch_logs_in_timeframe (client : LogsClient) (log_groups : List String)
    (start_time end_time : Option Int) (now : Int) (fuel : Nat) :
    Option (LogBundle × List FetchRequest) :=
  let times : Int × Int :=
    match start_time, end_time with
    | some s, some e => (s, e)
    | _, _ => (now - 60 * 60 * 1000, now)
  (fetch_groups client times.1 times.2 fuel log_groups).map
    (fun p => (assemble_log_bundle p.1, p.2))

/-! ### Pipeline failure event model (`detail` payload) -/

/-- `detail["type"]` — carries the provider of the failed action. -/
structure ActionType where
  provider : Option String
deriving DecidableEq, Repr

/-- `detail["execution-result"]`. -/
structure ExecutionResult where
  error_code : Option String
  external_execution_summary : Option String
deriving DecidableEq, Repr

/-- The `detail` dictionary of the pipeline failure notification.  A field is
`none` when the key is absent (or its value is `None`). -/
structure EventDetail where
  pipeline : Option String
  execution_id : Option String
  stage : Option String
  action : Option String
  action_name : Option String
  type : Option ActionType
  execution_result : Option ExecutionResult
deriving DecidableEq, Repr

/-- The raw pipeline failure notification (`pipeline_event`). -/
structure PipelineEvent where
  detail : Option EventDetail
  time : Option String
deriving DecidableEq, Repr

/-- Python truthiness of an optional string field: `None` and `""` are falsy. -/
def truthy_str : Option String → Bool
  | none => false
  | some s => s != ""

/-- `detail.get("stage")` after `detail = pipeline_event.get("detail", {})`. -/
def detail_stage (e : PipelineEvent) : Option String := e.detail.bind (fun d => d.stage)

/-- `detail.get("action")`. -/
def detail_action (e : PipelineEvent) : Option String := e.detail.bind (fun d => d.action)

/-- `detail.get("type", {}).get("provider")`. -/
def detail_provider (e : PipelineEvent) : Option String :=
  (e.detail.bind (fun d => d.type)).bind (fun t => t.provider)

/-! ### `LogAnalysisFunction._get_log_groups_from_ssm` (lines 100-147)
The SSM parameter store is a pure lookup `String → Option String`; `none`
models the `ParameterNotFound` exception, which the code converts into a
raised `ValueError` (here `Except.error`).  The exact exception message
formatting of line 111 is elided; the structure of the other messages is
kept. -/

def get_log_groups_from_ssm (ssm : String → Option String) (pipeline_name : String)
    (pipeline_event : PipelineEvent) : Except String (List String) :=
  match detail_stage pipeline_event, detail_action pipeline_event,
        detail_provider pipeline_event with
  | some st, some ac, some pv =>
    if st = "" ∨ ac = "" ∨ pv = "" then
      Except.error "Missing required information in pipeline event"
    else if pv = "CodeBuild" then
      let event_param :=
        "/pipeline/" ++ pipeline_name ++ "/" ++ st ++ "/" ++ ac ++ "/codebuild-event-log-group"
      let native_param :=
        "/pipeline/" ++ pipeline_name ++ "/" ++ st ++ "/" ++ ac ++ "/codebuild-native-log-group"
      match ssm event_param with
      | none => Except.error ("SSM parameter not found: " ++ event_param)
      | some v1 =>
        match ssm native_param with
        | none => Except.error ("SSM parameter not found: " ++ native_param)
        | some v2 =>
          let log_groups :=
            (if py_strip v1 ≠ "" then [py_strip v1] else []) ++
              (if py_strip v2 ≠ "" then [py_strip v2] else [])
          if log_groups = [] then
            Except.error ("No log groups found for " ++ pv ++ " stage " ++ st)
          else Except.ok log_groups
    else
      let param_path :=
        "/pipeline/" ++ pipeline_name ++ "/" ++ st ++ "/" ++ ac ++ "/" ++
          py_lower pv ++ "-log-group"
      match ssm param_path with
      | none => Except.error ("SSM parameter not found: " ++ param_path)
      | some v =>
        if py_strip v ≠ "" then Except.ok [py_strip v]
        else Except.error ("No log groups found for " ++ pv ++ " stage " ++ st)
  | _, _, _ => Except.error "Missing required information in pipeline event"

/-! ### `LogAnalysisFunction._get_pipeline_execution_timeframe` (lines 55-95) -/

/-- One entry of `pipelineExecutionSummaries`; the two instants are epoch
milliseconds, already UTC. -/
structure ExecutionSummary where
  pipelineExecutionId : String
  startTime : Int
  lastUpdateTime : Int
deriving DecidableEq, Repr

/-- `_get_pipeline_execution_timeframe`: the execution registry is a pure
lookup from pipeline name to the (fully paginated) execution summaries.
Missing identifiers or no matching execution yield `(none, none)`, never an
error. -/
def get_pipeline_execution_timeframe (codepipeline : String → List ExecutionSummary)
    (pipeline_event : PipelineEvent) : Option Int × Option Int :=
  match pipeline_event.detail.bind (fun d => d.pipeline),
        pipeline_event.detail.bind (fun d => d.execution_id) with
  | some pn, some eid =>
    if pn = "" ∨ eid = "" then (none, none)
    else
      match (codepipeline pn).filter (fun e => e.pipelineExecutionId == eid) with
      | [] => (none, none)
      | e :: _ => (some e.startTime, some e.lastUpdateTime)
  | _, _ => (none, none)

/-! ### `LogAnalysisFunction.analyze_logs` (lines 23-49) and the entrypoint
`handle_log_analysis` (lines 294-310) -/

/-- The analysis payload: the success dictionary of lines 37-47, or the
`{"error": ...}` dictionary of line 49 produced by the stage-level catch. -/
inductive LogAnalysisResult where
  | success (bundle : LogBundle) (start_time end_time : Option Int)
      (log_groups_list : List String) (failed_stage failed_action : Option String)
  | error (msg : String)
deriving DecidableEq, Repr

/-- `analyze_logs`: resolve the timeframe, resolve the log groups (a raised
`ValueError` is caught by the stage-level `except` and becomes the `error`
payload), then fetch and assemble.  `none` models a run whose pagination never
finished (fuel exhausted). -/
def analyze_logs (ssm : String → Option String)
    (codepipeline : String → List ExecutionSummary) (logs_client : LogsClient)
    (error_info_pipeline_name : String) (pipeline_event : PipelineEvent)
    (now : Int) (fuel : Nat) : Option LogAnalysisResult :=
  let tf := get_pipeline_execution_timeframe codepipeline pipeline_event
  match get_log_groups_from_ssm ssm error_info_pipeline_name pipeline_event with
  | Except.error e => some (LogAnalysisResult.error e)
  | Except.ok log_groups_list =>
    (fetch_logs_in_timeframe logs_client log_groups_list tf.1 tf.2 now fuel).map
      (fun p =>
        LogAnalysisResult.success p.1 tf.1 tf.2 log_groups_list
          (detail_stage pipeline_event)
          (pipeline_event.detail.bind (fun d => d.action_name)))

/-- The `{statusCode, body}` dictionary returned by the stage entrypoints. -/
structure LambdaResponse (β : Type) where
  statusCode : Nat
  body : β
deriving DecidableEq, Repr

/-- `handle_log_analysis` (lines 294-310): wraps the analysis result in a
`statusCode: 200` response (the 500 branch is reachable only when client
construction itself raises, which the pure client model excludes). -/
def handle_log_analysis (ssm : String → Option String)
    (codepipeline : String → List ExecutionSummary) (logs_client : LogsClient)
    (error_info_pipeline_name : String) (pipeline_event : PipelineEvent)
    (now : Int) (fuel : Nat) : Option (LambdaResponse LogAnalysisResult) :=
  (analyze_logs ssm codepipeline logs_client error_info_pipeline_name pipeline_event
      now fuel).map (fun r => ⟨200, r⟩)

/-! ### `supervisor_function.py` — orchestrator (lines 20-95) -/

/-- `_extract_error_info` output (lines 20-32). -/
structure ErrorInfo where
  pipeline_name : String
  stage : String
  action : String
  timestamp : String
  error_code : String
  error_summary : String
deriving DecidableEq, Repr

/-- `_extract_error_info` (lines 20-32): every field defaults to `""`. -/
def extract_error_info (event : PipelineEvent) : ErrorInfo :=
  { pipeline_name := (event.detail.bind (fun d => d.pipeline)).getD ""
    stage := (detail_stage event).getD ""
    action := (event.detail.bind (fun d => d.action_name)).getD ""
    timestamp := event.time.getD ""
    error_code := ((event.detail.bind (fun d => d.execution_result)).bind
      (fun r => r.error_code)).getD ""
    error_summary := ((event.detail.bind (fun d => d.execution_result)).bind
      (fun r => r.external_execution_summary)).getD "" }

/-- The `pipeline_info` part of the aggregated response. -/
structure PipelineInfo where
  name : String
  stage : String
deriving DecidableEq, Repr

/-- The aggregated final response (lines 58-68): `σ` is the solution stage's
payload, embedded verbatim under `solution_recommendations`. -/
structure FinalResponse (σ : Type) where
  status : String
  pipeline_info : PipelineInfo
  solution_recommendations : σ
deriving DecidableEq, Repr

/-- `_aggregate_response` (lines 58-68): the top-level status is the literal
`"success"` whatever the stage payloads contain. -/
def aggregate_response {σ : Type} (error_info : ErrorInfo) (solution : σ) :
    FinalResponse σ :=
  { status := "success"
    pipeline_info := ⟨error_info.pipeline_name, error_info.stage⟩
    solution_recommendations := solution }

/-- `orchestrate_analysis` (lines 74-95), with the three stage handlers and the
branch resolver passed as the client bundle: each stage's output feeds the
next, and the result is aggregated.  The top-level `except` is not modelled
because the handlers are total functions (the claim about it concerns runs on
which no exception escapes). -/
def orchestrate_analysis {ρ γ σ : Type} (get_branch : PipelineEvent → Option String)
    (handle_repo : Option String → ρ) (handle_logs : ErrorInfo → PipelineEvent → γ)
    (handle_solution : γ → ρ → σ) (pipeline_event : PipelineEvent) : FinalResponse σ :=
  let branch_name := get_branch pipeline_event
  let error_info := extract_error_info pipeline_event
  let repo_structure := handle_repo branch_name
  let analyzed_logs := handle_logs error_info pipeline_event
  let solution := handle_solution analyzed_logs repo_structure
  aggregate_response error_info solution

/-! ### Theorems -/

/-- C7 counterexample: the classification does not mark `requirements.txt` as a
config file — `.txt` is not among the config extensions and none of the config
name fragments occurs in the path — so the claimed scenario
("requirements.txt is both a config file and a build file") is false on the
code. -/
theorem c7_counterexample : is_config_file "requirements.txt" = false := by decide

/-- C7 (amended): for the tree `["src/app.py", "requirements.txt",
"Dockerfile"]`, classification marks `requirements.txt` as a build file only,
`Dockerfile` as both a config file and a deployment file, and `src/app.py` as
a source file only. -/
theorem c7_file_classification :
    is_config_file "requirements.txt" = false ∧
    is_build_file "requirements.txt" = true ∧
    is_source_file "requirements.txt" = false ∧
    is_deployment_file "requirements.txt" = false ∧
    is_config_file "Dockerfile" = true ∧
    is_deployment_file "Dockerfile" = true ∧
    is_build_file "Dockerfile" = false ∧
    is_source_file "Dockerfile" = false ∧
    is_source_file "src/app.py" = true ∧
    is_config_file "src/app.py" = false ∧
    is_build_file "src/app.py" = false ∧
    is_deployment_file "src/app.py" = false := by decide

/-- C8 counterexample: for the URL path `owner/my.gitrepo` the second segment
contains `.git` in the middle; the claim says such an occurrence is kept, but
`replace(".git", "")` removes every occurrence, returning `myrepo`. -/
theorem c8_counterexample :
    parse_github_url "owner/my.gitrepo" = some ("owner", "myrepo") ∧
    ("myrepo" : String) ≠ "my.gitrepo" := by decide

/-- C8 (amended): with at least two path segments, parsing returns the first
segment as owner and the second segment with every occurrence of `".git"`
removed (hence a trailing `.git` suffix is stripped, and a `.git` elsewhere is
removed too); with fewer than two segments it returns `none` (the callers turn
this into the invalid-URL error). -/
theorem c8_parse_github_url :
    (∀ url_path owner repo rest, url_path_parts url_path = owner :: repo :: rest →
      parse_github_url url_path = some (owner, String.mk (remove_git repo.data)))
  ∧ (∀ url_path, (url_path_parts url_path).length < 2 → parse_github_url url_path = none)
  ∧ parse_github_url "o/r.git" = some ("o", "r")
  ∧ parse_github_url "o/a.gitb" = some ("o", "ab") := by
  refine ⟨?_, ?_, by decide, by decide⟩
  · intro url_path owner repo rest h
    simp [parse_github_url, h]
  · intro url_path h
    unfold parse_github_url
    match hm : url_path_parts url_path with
    | [] => simp
    | [a] => simp
    | a :: b :: t => rw [hm] at h; simp at h; omega

/-- C8 witness: the amended theorem applied at the concrete path `x/y.git`. -/
theorem c8_parse_github_url_witness :
    parse_github_url "x/y.git" = some ("x", String.mk (remove_git "y.git".data)) :=
  c8_parse_github_url.1 "x/y.git" "x" "y.git" [] (by decide)

/-- C2: the suspect-file identifier returns either `none` or a filename that is
literally a member of the supplied file list; a cleaned reply that is the
literal `"NONE"` or absent from the list always yields `none` (and never an
error — the embedded computation is total, mirroring the catch-all that
returns `None` in the code). -/
theorem c2_suspect_file_validation :
    (∀ files resp, identify_problematic_file files resp = none ∨
      ∃ f, identify_problematic_file files resp = some f ∧ f ∈ files)
  ∧ (∀ files resp f, identify_problematic_file files resp = some f → f ∈ files)
  ∧ (∀ files, identify_problematic_file files "NONE" = none)
  ∧ (∀ files resp, clean_model_response resp ∉ files →
      identify_problematic_file files resp = none) := by
  have key : ∀ (files : List String) (resp : String) (f : String),
      identify_problematic_file files resp = some f → f ∈ files := by
    intro files resp f h
    unfold identify_problematic_file at h
    split at h
    · exact absurd h (by simp)
    · rename_i hcond
      push_neg at hcond
      obtain ⟨-, hmem⟩ := hcond
      obtain rfl : clean_model_response resp = f := by
        simpa using h
      simpa using hmem
  refine ⟨?_, key, ?_, ?_⟩
  · intro files resp
    match hi : identify_problematic_file files resp with
    | none => exact Or.inl rfl
    | some f => exact Or.inr ⟨f, rfl, key files resp f hi⟩
  · intro files
    rw [identify_problematic_file, if_pos (Or.inl (by decide))]
  · intro files resp h
    rw [identify_problematic_file, if_pos (Or.inr (by simpa using h))]

/-- C2 witness: the validation theorem applied at concrete inputs — an
in-list reply is returned and a reply not in the list yields `none`. -/
theorem c2_suspect_file_validation_witness :
    ("b.py" ∈ (["a.py", "b.py"] : List String)) ∧
    identify_problematic_file ["a.py"] "zzz" = none :=
  ⟨c2_suspect_file_validation.2.1 ["a.py", "b.py"] "b.py" "b.py" (by decide),
   c2_suspect_file_validation.2.2.2 ["a.py"] "zzz" (by decide)⟩

/-- C10: the aggregated final response carries the literal top-level status
`"success"` for every payload and every behaviour of the stage handlers
(including handlers that return error payloads); the log-analysis stage wraps
its own failures as an `error` body inside a `statusCode: 200` response, so a
stage failure never changes the top-level status. -/
theorem c10_top_level_status :
    (∀ (ρ γ σ : Type) (get_branch : PipelineEvent → Option String)
      (handle_repo : Option String → ρ) (handle_logs : ErrorInfo → PipelineEvent → γ)
      (handle_solution : γ → ρ → σ) (pipeline_event : PipelineEvent),
      (orchestrate_analysis get_branch handle_repo handle_logs handle_solution
          pipeline_event).status = "success")
  ∧ (∀ (ssm : String → Option String) (cp : String → List ExecutionSummary)
      (lc : LogsClient) (pn : String) (pe : PipelineEvent) (now : Int) (fuel : Nat)
      (m : String),
      get_log_groups_from_ssm ssm pn pe = Except.error m →
      handle_log_analysis ssm cp lc pn pe now fuel =
        some ⟨200, LogAnalysisResult.error m⟩)
  ∧ (∀ (ssm : String → Option String) (cp : String → List ExecutionSummary)
      (lc : LogsClient) (pn : String) (pe : PipelineEvent) (now : Int) (fuel : Nat)
      (resp : LambdaResponse LogAnalysisResult),
      handle_log_analysis ssm cp lc pn pe now fuel = some resp →
      resp.statusCode = 200) := by
  refine ⟨fun _ _ _ _ _ _ _ _ => rfl, ?_, ?_⟩
  · intro ssm cp lc pn pe now fuel m h
    unfold handle_log_analysis analyze_logs
    rw [h]
    rfl
  · intro ssm cp lc pn pe now fuel resp h
    unfold handle_log_analysis at h
    rw [Option.map_eq_some'] at h
    obtain ⟨r, -, hr⟩ := h
    rw [← hr]

/-- The stage/action/provider-complete CodeBuild failure event used by the
supervisor and log-group theorems. -/
def codebuild_failure_event : PipelineEvent :=
  ⟨some ⟨some "p", some "x", some "S", some "A", some "AN",
    some ⟨some "CodeBuild"⟩, none⟩, none⟩

/-- The all-parameters-missing SSM store. -/
def empty_ssm : String → Option String := fun _ => none

/-- The inert CloudWatch Logs client. -/
def inert_logs_client : LogsClient := ⟨fun _ => [], fun _ _ _ _ _ => ⟨[], none⟩⟩

/-- C10 witness: with every SSM parameter missing, log analysis fails with a
parameter-not-found error and the entrypoint still answers `statusCode 200`
with the error embedded in the body. -/
theorem c10_top_level_status_witness :
    handle_log_analysis empty_ssm (fun _ => []) inert_logs_client "p"
        codebuild_failure_event 0 1 =
      some ⟨200, LogAnalysisResult.error
        "SSM parameter not found: /pipeline/p/S/A/codebuild-event-log-group"⟩ :=
  c10_top_level_status.2.1 empty_ssm (fun _ => []) inert_logs_client "p"
    codebuild_failure_event 0 1
    "SSM parameter not found: /pipeline/p/S/A/codebuild-event-log-group" (by rfl)

/-- Helper: the native fetch loop terminates within the stated fuel: every
continued iteration grows the accumulator by at least one event while the
guard keeps it at 100 or fewer. -/
theorem around_loop_terminates (client : LogsClient) (lg stream : String) (a b : Int) :
    ∀ (fuel : Nat) (events : List LogEvent) (reqs : List FetchRequest)
      (tok : Option String), 101 - events.length < fuel →
      (get_events_around_loop client lg stream a b fuel events reqs tok).isSome = true := by
  intro fuel
  induction fuel with
  | zero => intro events reqs tok h; omega
  | succ n ih =>
    intro events reqs tok h
    unfold get_events_around_loop
    dsimp only
    split
    · simp
    · rename_i hcond
      push_neg at hcond
      obtain ⟨-, hne, hle⟩ := hcond
      apply ih
      have hpos : (client.get_log_events lg stream a b tok).events.length ≠ 0 := by
        simpa using hne
      simp only [List.length_append, List.length_map]
      simp only [List.length_append, List.length_map] at hle
      omega

/-- Helper: the event-kind fetch loop never finishes against an upstream that
always answers with a fresh token and a non-empty page. -/
theorem adversarial_event_loop_none (client : LogsClient)
    (hclient : ∀ lg stream a b tok, (client.get_log_events lg stream a b tok).events ≠ [] ∧
      truthy_token (client.get_log_events lg stream a b tok).nextForwardToken = true)
    (lg stream : String) (a b : Int) :
    ∀ (fuel : Nat) (events : List LogEvent) (reqs : List FetchRequest)
      (tok : Option String),
      get_all_events_loop client lg stream a b fuel events reqs tok = none := by
  intro fuel
  induction fuel with
  | zero => intro events reqs tok; rfl
  | succ n ih =>
    intro events reqs tok
    unfold get_all_events_loop
    rw [if_neg]
    · exact ih _ _ _
    · push_neg
      exact ⟨by simp [(hclient lg stream a b tok).2], (hclient lg stream a b tok).1⟩


/-- The misbehaving upstream: every page is non-empty and carries a token. -/
def adversarial_logs_client : LogsClient :=
  ⟨fun _ => ["stream"], fun _ _ _ _ _ => ⟨[⟨0, "more"⟩], some "token"⟩⟩

/-- C9 counterexample: against the misbehaving upstream, the event-kind
pagination loop of `_get_all_events_from_stream` never terminates — no fuel
bound suffices — because its only stop conditions are a falsy token or an
empty page and it has no event-count cap. -/
theorem c9_counterexample :
    ¬ ∃ fuel : Nat, (get_all_events_from_stream adversarial_logs_client "g" "s" 0 1
        fuel).isSome = true := by
  rintro ⟨fuel, h⟩
  rw [get_all_events_from_stream,
    adversarial_event_loop_none adversarial_logs_client
      (fun _ _ _ _ _ => ⟨by simp [adversarial_logs_client], by rfl⟩) "g" "s" 0 1] at h
  simp at h

/-- C9 (amended): the native-kind fetch loop is additionally bounded by the
event-count cap and terminates against every upstream within 102 pages; the
event-kind loop is bounded only by its token/empty-page stop conditions — it
stops immediately when the first response carries no truthy token, but (per
the counterexample) need not terminate against a misbehaving upstream. -/
theorem c9_pagination_bounds :
    (∀ (client : LogsClient) (lg stream : String) (a b : Int),
      (get_events_around_failure client lg stream a b 102).isSome = true)
  ∧ (∀ (client : LogsClient) (lg stream : String) (a b : Int),
      truthy_token (client.get_log_events lg stream a b none).nextForwardToken = false →
      (get_all_events_from_stream client lg stream a b 1).isSome = true) := by
  constructor
  · intro client lg stream a b
    exact around_loop_terminates client lg stream a b 102 [] [] none (by simp)
  · intro client lg stream a b h
    unfold get_all_events_from_stream get_all_events_loop
    rw [if_pos (Or.inl (by simp [h]))]
    simp

/-- The well-behaved upstream answering a single tokenless page. -/
def single_page_logs_client : LogsClient :=
  ⟨fun _ => ["s"], fun _ _ _ _ _ => ⟨[⟨0, "m"⟩], none⟩⟩

/-- C9 witness: the amended theorem applied to the single-page upstream. -/
theorem c9_pagination_bounds_witness :
    (get_all_events_from_stream single_page_logs_client "g" "s" 0 1 1).isSome = true :=
  c9_pagination_bounds.2 single_page_logs_client "g" "s" 0 1 (by decide)

/-- The upstream answering 51-event pages with a fresh token each time. -/
def page51_logs_client : LogsClient :=
  ⟨fun _ => ["stream"], fun _ _ _ _ _ => ⟨List.replicate 51 ⟨0, "m"⟩, some "t"⟩⟩

/-- C5 counterexample: against 51-event pages, the check `len(events) > 100`
only fires after the page that crossed the cap has been appended, so the
per-group native fetch returns 102 events — more than 100 — refuting "never
returns more than 100 native events". -/
theorem c5_counterexample :
    (get_events_around_failure page51_logs_client "g" "s" 0 1 3).map
        (fun p => p.1.length) = some 102 ∧ ¬ (102 ≤ 100) := by
  constructor
  · rfl
  · decide

/-- Helper: the native fetch loop recurses only while at most 100 events have
accumulated, so the final result exceeds that bound by at most one page. -/
theorem around_loop_length_bound (client : LogsClient) (lg stream : String) (a b : Int)
    (P : Nat)
    (hP : ∀ tok, (client.get_log_events lg stream a b tok).events.length ≤ P) :
    ∀ (fuel : Nat) (events : List LogEvent) (reqs : List FetchRequest)
      (tok : Option String) (res : List LogEvent × List FetchRequest),
      events.length ≤ 100 →
      get_events_around_loop client lg stream a b fuel events reqs tok = some res →
      res.1.length ≤ 100 + P := by
  intro fuel
  induction fuel with
  | zero => intro events reqs tok res _ h; exact absurd h (by simp [get_events_around_loop])
  | succ n ih =>
    intro events reqs tok res hlen h
    unfold get_events_around_loop at h
    dsimp only at h
    split at h
    · injection h with h2
      rw [← h2]
      have := hP tok
      simp only [List.length_append, List.length_map]
      omega
    · rename_i hcond
      push_neg at hcond
      obtain ⟨-, -, hle⟩ := hcond
      exact ih _ _ _ res hle h

/-- C5 (amended): pagination stops at the first page boundary where the
accumulated count exceeds 100 (at most 100 events are accumulated before the
final page), so whenever every upstream page holds at most `P` events the
per-group native fetch returns at most `100 + P` events; it is not capped at
exactly 100. -/
theorem c5_native_fetch_cap (client : LogsClient) (lg stream : String) (a b : Int)
    (P : Nat)
    (hP : ∀ tok, (client.get_log_events lg stream a b tok).events.length ≤ P)
    (fuel : Nat) (res : List LogEvent × List FetchRequest)
    (h : get_events_around_failure client lg stream a b fuel = some res) :
    res.1.length ≤ 100 + P :=
  around_loop_length_bound client lg stream a b P hP fuel [] [] none res (by simp) h

/-- C5 witness: the amended bound applied to the single-page upstream with
page size 1. -/
theorem c5_native_fetch_cap_witness :
    ([(⟨"g", 0, "m", "native"⟩ : LogEvent)]).length ≤ 100 + 1 :=
  c5_native_fetch_cap single_page_logs_client "g" "s" 0 1 1 (fun _ => Nat.le_refl 1) 3
    ⟨[⟨"g", 0, "m", "native"⟩], [⟨"g", "s", 0, 1, "native"⟩]⟩ (by rfl)

/-- An SSM store where both CodeBuild parameters exist but the native one holds
only whitespace. -/
def blank_native_ssm : String → Option String := fun name =>
  if name = "/pipeline/p/S/A/codebuild-event-log-group" then some "lg-e"
  else if name = "/pipeline/p/S/A/codebuild-native-log-group" then some " "
  else none

/-- C6 counterexample: for a CodeBuild failure both SSM parameters exist, yet
resolution yields one log group, not two — the native parameter's value strips
to the empty string and is skipped by the `if log_group:` check. -/
theorem c6_counterexample :
    get_log_groups_from_ssm blank_native_ssm "p" codebuild_failure_event =
        Except.ok ["lg-e"] ∧
    (["lg-e"] : List String).length ≠ 2 := ⟨by rfl, by decide⟩

/-- C6 (amended): CodeBuild resolution yields exactly the two stripped values
when both parameters exist with values that are non-empty after stripping;
any other provider yields exactly its one stripped value when that parameter
exists non-blank; a provider whose only parameter value strips to the empty
string makes resolution fail with an error (no evidence source). -/
theorem c6_log_group_resolution :
    (∀ (ssm : String → Option String) (pn st ac v1 v2 : String) (pe : PipelineEvent),
      detail_stage pe = some st → detail_action pe = some ac →
      detail_provider pe = some "CodeBuild" → st ≠ "" → ac ≠ "" →
      ssm ("/pipeline/" ++ pn ++ "/" ++ st ++ "/" ++ ac ++ "/codebuild-event-log-group")
        = some v1 →
      ssm ("/pipeline/" ++ pn ++ "/" ++ st ++ "/" ++ ac ++ "/codebuild-native-log-group")
        = some v2 →
      py_strip v1 ≠ "" → py_strip v2 ≠ "" →
      get_log_groups_from_ssm ssm pn pe = Except.ok [py_strip v1, py_strip v2])
  ∧ (∀ (ssm : String → Option String) (pn st ac pv v : String) (pe : PipelineEvent),
      detail_stage pe = some st → detail_action pe = some ac →
      detail_provider pe = some pv → st ≠ "" → ac ≠ "" → pv ≠ "" → pv ≠ "CodeBuild" →
      ssm ("/pipeline/" ++ pn ++ "/" ++ st ++ "/" ++ ac ++ "/" ++ py_lower pv ++ "-log-group")
        = some v →
      py_strip v ≠ "" →
      get_log_groups_from_ssm ssm pn pe = Except.ok [py_strip v])
  ∧ (∀ (ssm : String → Option String) (pn st ac pv v : String) (pe : PipelineEvent),
      detail_stage pe = some st → detail_action pe = some ac →
      detail_provider pe = some pv → st ≠ "" → ac ≠ "" → pv ≠ "" → pv ≠ "CodeBuild" →
      ssm ("/pipeline/" ++ pn ++ "/" ++ st ++ "/" ++ ac ++ "/" ++ py_lower pv ++ "-log-group")
        = some v →
      py_strip v = "" →
      get_log_groups_from_ssm ssm pn pe =
        Except.error ("No log groups found for " ++ pv ++ " stage " ++ st)) := by
  refine ⟨?_, ?_, ?_⟩
  · intro ssm pn st ac v1 v2 pe hst hac hpv hst2 hac2 h1 h2 hv1 hv2
    unfold get_log_groups_from_ssm
    rw [hst, hac, hpv]
    dsimp only
    rw [if_neg (by simp [hst2, hac2]), if_pos rfl, h1, h2]
    dsimp only
    rw [if_pos hv1, if_pos hv2]
    simp
  · intro ssm pn st ac pv v pe hst hac hpv hst2 hac2 hpv2 hcb hv hvs
    unfold get_log_groups_from_ssm
    rw [hst, hac, hpv]
    dsimp only
    rw [if_neg (by simp [hst2, hac2, hpv2]), if_neg hcb, hv]
    dsimp only
    rw [if_pos hvs]
  · intro ssm pn st ac pv v pe hst hac hpv hst2 hac2 hpv2 hcb hv hvs
    unfold get_log_groups_from_ssm
    rw [hst, hac, hpv]
    dsimp only
    rw [if_neg (by simp [hst2, hac2, hpv2]), if_neg hcb, hv]
    dsimp only
    rw [if_neg (by simp [hvs])]

/-- An SSM store holding both CodeBuild parameters with usable values. -/
def good_codebuild_ssm : String → Option String := fun name =>
  if name = "/pipeline/p/S/A/codebuild-event-log-group" then some "lg1"
  else if name = "/pipeline/p/S/A/codebuild-native-log-group" then some "lg2"
  else none

/-- C6 witness: the amended resolution theorem applied to the concrete
CodeBuild event with both parameters present and non-blank. -/
theorem c6_log_group_resolution_witness :
    get_log_groups_from_ssm good_codebuild_ssm "p" codebuild_failure_event =
      Except.ok ["lg1", "lg2"] :=
  c6_log_group_resolution.1 good_codebuild_ssm "p" "S" "A" "lg1" "lg2"
    codebuild_failure_event rfl rfl rfl (by decide) (by decide) (by rfl) (by rfl)
    (by decide) (by decide)

/-- Helper: every request issued by the native fetch loop (beyond those already
accumulated) is tagged `"native"` and carries exactly the loop's interval. -/
theorem around_loop_requests (client : LogsClient) (lg stream : String) (a b : Int) :
    ∀ (fuel : Nat) (events : List LogEvent) (reqs : List FetchRequest)
      (tok : Option String) (res : List LogEvent × List FetchRequest),
      get_events_around_loop client lg stream a b fuel events reqs tok = some res →
      ∀ r ∈ res.2, r ∈ reqs ∨ (r.kind = "native" ∧ r.startMs = a ∧ r.endMs = b) := by
  intro fuel
  induction fuel with
  | zero => intro events reqs tok res h; exact absurd h (by simp [get_events_around_loop])
  | succ n ih =>
    intro events reqs tok res h
    unfold get_events_around_loop at h
    dsimp only at h
    split at h
    · injection h with h2
      rw [← h2]
      intro r hr
      rcases List.mem_append.mp hr with hl | hr2
      · exact Or.inl hl
      · right
        obtain rfl : r = ⟨lg, stream, a, b, "native"⟩ := by simpa using hr2
        exact ⟨rfl, rfl, rfl⟩
    · intro r hr
      rcases ih _ _ _ res h r hr with hl | hval
      · rcases List.mem_append.mp hl with hl2 | hr2
        · exact Or.inl hl2
        · right
          obtain rfl : r = ⟨lg, stream, a, b, "native"⟩ := by simpa using hr2
          exact ⟨rfl, rfl, rfl⟩
      · exact Or.inr hval

/-- Helper: every request issued by the event fetch loop is tagged `"event"`. -/
theorem all_events_loop_requests (client : LogsClient) (lg stream : String) (a b : Int) :
    ∀ (fuel : Nat) (events : List LogEvent) (reqs : List FetchRequest)
      (tok : Option String) (res : List LogEvent × List FetchRequest),
      get_all_events_loop client lg stream a b fuel events reqs tok = some res →
      ∀ r ∈ res.2, r ∈ reqs ∨ r.kind = "event" := by
  intro fuel
  induction fuel with
  | zero => intro events reqs tok res h; exact absurd h (by simp [get_all_events_loop])
  | succ n ih =>
    intro events reqs tok res h
    unfold get_all_events_loop at h
    dsimp only at h
    split at h
    · injection h with h2
      rw [← h2]
      intro r hr
      rcases List.mem_append.mp hr with hl | hr2
      · exact Or.inl hl
      · right
        obtain rfl : r = ⟨lg, stream, a, b, "event"⟩ := by simpa using hr2
        rfl
    · intro r hr
      rcases ih _ _ _ res h r hr with hl | hval
      · rcases List.mem_append.mp hl with hl2 | hr2
        · exact Or.inl hl2
        · right
          obtain rfl : r = ⟨lg, stream, a, b, "event"⟩ := by simpa using hr2
          rfl
      · exact Or.inr hval

/-- Helper: every `"native"`-tagged request issued while fetching one log group
carries the 30-minute window `[end_ms - 30*60*1000, end_ms]`. -/
theorem fetch_group_native_requests (client : LogsClient) (start_ms end_ms : Int)
    (fuel : Nat) (lg : String) (res : List LogEvent × List FetchRequest)
    (h : fetch_group client start_ms end_ms fuel lg = some res) :
    ∀ r ∈ res.2, r.kind = "native" →
      r.startMs = end_ms - 30 * 60 * 1000 ∧ r.endMs = end_ms := by
  unfold fetch_group at h
  intro r hr hkind
  rcases hstreams : client.describe_log_streams lg with _ | ⟨stream, rest⟩
  · rw [hstreams] at h
    injection h with h2
    rw [← h2] at hr
    simp at hr
  · rw [hstreams] at h
    dsimp only at h
    by_cases hev : is_event_log_group lg = true
    · rw [if_pos hev] at h
      rcases all_events_loop_requests client lg stream start_ms end_ms fuel [] [] none res h
          r hr with hl | hkind2
      · simp at hl
      · rw [hkind2] at hkind
        exact absurd hkind (by decide)
    · rw [if_neg hev] at h
      rcases around_loop_requests client lg stream (end_ms - 30 * 60 * 1000) end_ms fuel
          [] [] none res h r hr with hl | hval
      · simp at hl
      · exact ⟨hval.2.1, hval.2.2⟩

/-- Helper: the per-group property lifts over the whole group list. -/
theorem fetch_groups_native_requests (client : LogsClient) (start_ms end_ms : Int)
    (fuel : Nat) :
    ∀ (log_groups : List String) (res : List LogEvent × List FetchRequest),
      fetch_groups client start_ms end_ms fuel log_groups = some res →
      ∀ r ∈ res.2, r.kind = "native" →
        r.startMs = end_ms - 30 * 60 * 1000 ∧ r.endMs = end_ms := by
  intro log_groups
  induction log_groups with
  | nil =>
    intro res h r hr
    unfold fetch_groups at h
    injection h with h2
    rw [← h2] at hr
    simp at hr
  | cons lg rest ih =>
    intro res h r hr hkind
    unfold fetch_groups at h
    split at h
    · rename_i evs rs evs2 rs2 hg hrest
      injection h with h2
      rw [← h2] at hr
      rcases List.mem_append.mp hr with hl | hr2
      · exact fetch_group_native_requests client start_ms end_ms fuel lg (evs, rs) hg r hl
          hkind
      · exact ih (evs2, rs2) hrest r hr2 hkind
    · exact absurd h (by simp)

/-- C3: whenever both window bounds are present (and in particular when
`start_time ≤ end_time`), every native-kind `get_log_events` request issued by
`_fetch_logs_in_timeframe` covers exactly the 30-minute interval
`[end_time - 30*60*1000, end_time]` — never the full execution window. -/
theorem c3_native_window (client : LogsClient) (log_groups : List String)
    (s e now : Int) (fuel : Nat) (res : LogBundle × List FetchRequest)
    (req : FetchRequest) (hse : s ≤ e)
    (hfetch : fetch_logs_in_timeframe client log_groups (some s) (some e) now fuel
      = some res)
    (hmem : req ∈ res.2) (hkind : req.kind = "native") :
    req.startMs = e - 30 * 60 * 1000 ∧ req.endMs = e := by
  unfold fetch_logs_in_timeframe at hfetch
  rw [Option.map_eq_some'] at hfetch
  obtain ⟨p, hp, hres⟩ := hfetch
  have hmem2 : req ∈ p.2 := by rw [← hres] at hmem; exact hmem
  exact fetch_groups_native_requests client s e fuel log_groups p hp req hmem2 hkind

/-- A native-kind single-page upstream used by the window witness. -/
def native_window_client : LogsClient :=
  ⟨fun _ => ["s1"], fun _ _ _ _ _ => ⟨[⟨5, "m"⟩], none⟩⟩

/-- The concrete fetch result of the window witness run. -/
def native_window_result : LogBundle × List FetchRequest :=
  (⟨[⟨"gnat", 5, "m", "native"⟩], 0, 1, "Found 0 events and 1 native logs"⟩,
   [⟨"gnat", "s1", 1800000, 3600000, "native"⟩])

/-- C3 witness: the window theorem applied to a concrete one-group,
one-page run with window `[0, 3600000]`. -/
theorem c3_native_window_witness :
    (0 : Int) ≤ 3600000 ∧
    (⟨"gnat", "s1", 1800000, 3600000, "native"⟩ : FetchRequest).startMs
        = 3600000 - 30 * 60 * 1000 ∧
    (⟨"gnat", "s1", 1800000, 3600000, "native"⟩ : FetchRequest).endMs = 3600000 :=
  ⟨by decide,
   c3_native_window native_window_client ["gnat"] 0 3600000 0 5 native_window_result
     ⟨"gnat", "s1", 1800000, 3600000, "native"⟩ (by decide) (by rfl) (by simp [native_window_result])
     rfl⟩

/-- Helper: a native-kind entry is not event-kind. -/
theorem native_not_event {x : LogEvent} (h : is_native_entry x = true) :
    is_event_entry x = false := by
  simp [is_native_entry] at h
  simp [is_event_entry, h]

/-- Helper: an event-kind entry is not native-kind. -/
theorem event_not_native {x : LogEvent} (h : is_event_entry x = true) :
    is_native_entry x = false := by
  simp [is_event_entry] at h
  simp [is_native_entry, h]

/-- Helper: filtering a filtered list again changes nothing. -/
theorem filter_idem {α : Type} (p : α → Bool) (l : List α) :
    (l.filter p).filter p = l.filter p := by
  rw [List.filter_eq_self]
  intro a ha
  exact (List.mem_filter.mp ha).2

/-- Helper: the event-kind entries of the kept native tail form the empty
list. -/
theorem lastN_native_filter_event (l : List LogEvent) :
    (lastN 50 (sorted_native_logs l)).filter is_event_entry = [] := by
  rw [List.filter_eq_nil_iff]
  intro a ha
  have haN : a ∈ sorted_native_logs l :=
    List.Sublist.mem (by simpa [lastN] using ha) (List.drop_sublist _ _)
  simp [native_not_event (List.mem_filter.mp haN).2]

/-- Helper: the kept native tail consists of native-kind entries only. -/
theorem lastN_native_filter_native (l : List LogEvent) :
    (lastN 50 (sorted_native_logs l)).filter is_native_entry
      = lastN 50 (sorted_native_logs l) := by
  rw [List.filter_eq_self]
  intro a ha
  have haN : a ∈ sorted_native_logs l :=
    List.Sublist.mem (by simpa [lastN] using ha) (List.drop_sublist _ _)
  exact (List.mem_filter.mp haN).2

/-- Helper: the event-kind split contains no native-kind entries. -/
theorem event_logs_filter_native (l : List LogEvent) :
    (sorted_event_logs l).filter is_native_entry = [] := by
  rw [List.filter_eq_nil_iff]
  intro a ha
  simp [event_not_native (List.mem_filter.mp ha).2]

/-- Helper: the final logs list is a permutation of the event split followed by
the kept native tail. -/
theorem assemble_logs_perm (l : List LogEvent) :
    ((assemble_log_bundle l).logs).Perm
      (sorted_event_logs l ++ lastN 50 (sorted_native_logs l)) :=
  List.perm_insertionSort tsLE _

/-- Helper: the event-kind entries of the final bundle are exactly (a
permutation of) the event-kind entries of the input. -/
theorem assemble_filter_event_perm (l : List LogEvent) :
    (((assemble_log_bundle l).logs).filter is_event_entry).Perm
      (l.filter is_event_entry) := by
  have p1 := List.Perm.filter is_event_entry (assemble_logs_perm l)
  rw [List.filter_append, lastN_native_filter_event, List.append_nil] at p1
  have p2 : ((sorted_event_logs l).filter is_event_entry).Perm (l.filter is_event_entry) := by
    rw [sorted_event_logs, filter_idem]
    exact List.Perm.filter is_event_entry (List.perm_insertionSort tsLE l)
  exact p1.trans p2

/-- Helper: the native-kind entries of the final bundle are exactly the kept
native tail. -/
theorem assemble_filter_native_perm (l : List LogEvent) :
    (((assemble_log_bundle l).logs).filter is_native_entry).Perm
      (lastN 50 (sorted_native_logs l)) := by
  have p1 := List.Perm.filter is_native_entry (assemble_logs_perm l)
  rw [List.filter_append, event_logs_filter_native, lastN_native_filter_native,
    List.nil_append] at p1
  exact p1

/-- C1: for every collection of fetched log events, the final bundle satisfies
`len(logs) == total_events + min(total_native, 50)`; its event-kind entries
are all of the input's event-kind entries; and when more than 50 native-kind
entries exist, its native-kind entries are exactly the last 50 of the
timestamp-sorted native entries — 50 of them, drawn from the input's native
entries, each with a timestamp at least that of every dropped native entry. -/
theorem c1_log_bundle_invariant (all_logs : List LogEvent) :
    (assemble_log_bundle all_logs).logs.length
        = (assemble_log_bundle all_logs).total_events
          + min (assemble_log_bundle all_logs).total_native 50
  ∧ (((assemble_log_bundle all_logs).logs).filter is_event_entry).Perm
      (all_logs.filter is_event_entry)
  ∧ (50 < (assemble_log_bundle all_logs).total_native →
      (((assemble_log_bundle all_logs).logs).filter is_native_entry).Perm
          (lastN 50 (sorted_native_logs all_logs))
      ∧ (((assemble_log_bundle all_logs).logs).filter is_native_entry).Subperm
          (all_logs.filter is_native_entry)
      ∧ (((assemble_log_bundle all_logs).logs).filter is_native_entry).length = 50
      ∧ (∀ x ∈ (sorted_native_logs all_logs).take
            ((sorted_native_logs all_logs).length - 50),
          ∀ y ∈ lastN 50 (sorted_native_logs all_logs),
            x.timestamp ≤ y.timestamp)) := by
  refine ⟨?_, assemble_filter_event_perm all_logs, ?_⟩
  · have p1 := (assemble_logs_perm all_logs).length_eq
    rw [List.length_append] at p1
    have hK : (lastN 50 (sorted_native_logs all_logs)).length
        = (sorted_native_logs all_logs).length
          - ((sorted_native_logs all_logs).length - 50) := by
      simp [lastN, List.length_drop]
    show (assemble_log_bundle all_logs).logs.length
        = (sorted_event_logs all_logs).length
          + min (sorted_native_logs all_logs).length 50
    omega
  · intro h50
    replace h50 : 50 < (sorted_native_logs all_logs).length := h50
    refine ⟨assemble_filter_native_perm all_logs, ?_, ?_, ?_⟩
    · refine ((assemble_filter_native_perm all_logs).subperm).trans ?_
      refine (List.Sublist.subperm ?_).trans
        (List.Perm.subperm
          (List.Perm.filter is_native_entry (List.perm_insertionSort tsLE all_logs)))
      simpa [lastN] using List.drop_sublist
        ((sorted_native_logs all_logs).length - 50) (sorted_native_logs all_logs)
    · have p1 := (assemble_filter_native_perm all_logs).length_eq
      have hK : (lastN 50 (sorted_native_logs all_logs)).length
          = (sorted_native_logs all_logs).length
            - ((sorted_native_logs all_logs).length - 50) := by
        simp [lastN, List.length_drop]
      omega
    · have hsorted : List.Sorted tsLE (sorted_all_logs all_logs) :=
        List.sorted_insertionSort tsLE all_logs
      have hN : List.Pairwise tsLE (sorted_native_logs all_logs) :=
        List.Pairwise.filter is_native_entry hsorted
      have hsplit := List.take_append_drop
        ((sorted_native_logs all_logs).length - 50) (sorted_native_logs all_logs)
      have hcross := (List.pairwise_append.mp (by rw [hsplit]; exact hN)).2.2
      intro x hx y hy
      exact hcross x hx y (by simpa [lastN] using hy)

/-- The 60-native-entry input of the truncation witness. -/
def many_native_logs : List LogEvent :=
  (List.range 60).map (fun i => ⟨"g", (i : Int), "m", "native"⟩)

/-- C1 witness: the bundle invariant applied to 60 native entries — more than
50 exist and exactly 50 survive. -/
theorem c1_log_bundle_invariant_witness :
    50 < (assemble_log_bundle many_native_logs).total_native ∧
    (((assemble_log_bundle many_native_logs).logs).filter is_native_entry).length = 50 :=
  ⟨by decide, ((c1_log_bundle_invariant many_native_logs).2.2 (by decide)).2.2.1⟩

/-- C4 counterexample: a native entry arriving before an event entry with the
same timestamp.  The only timestamp-ascending ordering of this input that
preserves arrival order among equal timestamps is the stable sort of the
input, i.e. the input itself; the bundle instead places the event-kind entry
first (the code concatenates `event_logs + native_logs[-50:]` before the final
stable sort), so arrival order among duplicate timestamps is not preserved. -/
theorem c4_counterexample :
    List.insertionSort tsLE
        [(⟨"g", 5, "na", "native"⟩ : LogEvent), ⟨"g", 5, "ev", "event"⟩]
      = [⟨"g", 5, "na", "native"⟩, ⟨"g", 5, "ev", "event"⟩] ∧
    (assemble_log_bundle [⟨"g", 5, "na", "native"⟩, ⟨"g", 5, "ev", "event"⟩]).logs
      = [⟨"g", 5, "ev", "event"⟩, ⟨"g", 5, "na", "native"⟩] ∧
    (assemble_log_bundle [⟨"g", 5, "na", "native"⟩, ⟨"g", 5, "ev", "event"⟩]).logs
      ≠ List.insertionSort tsLE
        [(⟨"g", 5, "na", "native"⟩ : LogEvent), ⟨"g", 5, "ev", "event"⟩] := by
  refine ⟨by decide, by decide, by decide⟩

/-- C4 (amended): the final logs list is sorted by timestamp ascending for
every input; among entries with equal timestamps, however, event-kind entries
precede native-kind entries regardless of arrival order (arrival order is
preserved only within each kind), as the concrete tie shows. -/
theorem c4_logs_sorted :
    (∀ all_logs : List LogEvent,
      List.Sorted tsLE ((assemble_log_bundle all_logs).logs))
  ∧ (assemble_log_bundle [⟨"g", 5, "na", "native"⟩, ⟨"g", 5, "ev", "event"⟩]).logs
      = [⟨"g", 5, "ev", "event"⟩, ⟨"g", 5, "na", "native"⟩] := by
  constructor
  · intro all_logs
    exact List.sorted_insertionSort tsLE _
  · decide
